import Mathlib

set_option maxRecDepth 4000

/-
Verification of the tenant (instance) read-side query unit
(internal/query/instance.go) against its specification.

The definitions below are a shallow embedding of that unit.  Collaborators
that the unit imports but that are not part of the source file (the errors
package, the squirrel statement builder, the projection column names, the
authz context, the sql execution handle, the x/text language library) are
modelled from the spec; each such definition says so in its doc comment.
Everything else is translated directly from the source file.
-/

namespace Query

/-- Modelled from the spec: the three error kinds of the internal errors
package that surface to callers (spec section 7). -/
inductive ErrKind where
  | invalidArgument
  | notFound
  | internal
deriving DecidableEq

/-- Modelled from the spec: a Go error value.  Base errors are the sql
package sentinel ErrNoRows and opaque driver or library errors; caos is a
typed error of the internal errors package carrying kind, id, message and
the wrapped parent error. -/
inductive GoError where
  | sqlErrNoRows
  | driver (msg : String)
  | caos (kind : ErrKind) (id : String) (message : String) (parent : GoError)
deriving DecidableEq

/-- Modelled from the spec: errors.ThrowInvalidArgument wraps a parent error
as an InvalidArgument condition with an id and a caller facing message. -/
def ThrowInvalidArgument (parent : GoError) (id message : String) : GoError :=
  GoError.caos ErrKind.invalidArgument id message parent

/-- Modelled from the spec: errors.ThrowNotFound wraps a parent error as a
NotFound condition. -/
def ThrowNotFound (parent : GoError) (id message : String) : GoError :=
  GoError.caos ErrKind.notFound id message parent

/-- Modelled from the spec: errors.ThrowInternal wraps a parent error as an
Internal condition. -/
def ThrowInternal (parent : GoError) (id message : String) : GoError :=
  GoError.caos ErrKind.internal id message parent

/-- The kind test used when classifying a returned error. -/
def GoError.isKind : GoError → ErrKind → Bool
  | GoError.caos k _ _ _, k2 => k = k2
  | _, _ => false

/-- Go errs.Is: the target equals the error or appears in its unwrap chain
(a caos error unwraps to its parent, base errors do not unwrap). -/
def errsIs : GoError → GoError → Bool
  | e@(GoError.caos _ _ _ p), target => e == target || errsIs p target
  | e, target => e == target

/-- Modelled from the spec: an x/text language tag value.  The undefined
tag und stands for language.Und, which is also the zero value of the Go
Tag struct. -/
inductive LangTag where
  | und
  | tag (s : String)
deriving DecidableEq

/-- Modelled from the spec: language.Make parses a tag string; the empty
string cannot be parsed and yields the undefined tag, and a well formed
non empty tag (the only non empty inputs arising in this unit) parses to
itself. -/
def languageMake (s : String) : LangTag :=
  if s = "" then LangTag.und else LangTag.tag s

/-- Modelled from the spec: language.Und, the undefined language sentinel. -/
def languageUnd : LangTag := LangTag.und

/-- Go time.Time modelled as an abstract tick count. -/
abbrev GoTime := Nat

/-- Modelled from the spec: domain.Step, a lifecycle stage enum, modelled
as its numeric stage. -/
abbrev Step := Nat

/-- Modelled from the spec: a read table of the schema registry (the table
type of the query package, defined in a sibling file). -/
structure Table where
  name : String
deriving DecidableEq

/-- Modelled from the spec: the table identifier used in FROM clauses. -/
def Table.identifier (t : Table) : String := t.name

/-- Modelled from the spec: a column of the schema registry, owned by a
table (the Column type of the query package, defined in a sibling file). -/
structure Column where
  name : String
  table : Table
deriving DecidableEq

/-- Modelled from the spec: the fully qualified column reference; a column
without an owning table (the aggregate count column) renders as its bare
name. -/
def Column.identifier (c : Column) : String :=
  if c.table.name = "" then c.name else c.table.name ++ "." ++ c.name

/-- Modelled from the spec: the projection package name of the tenant read
table. -/
def InstanceProjectionTable : String := "projections.instances"

def instanceTable : Table := { name := InstanceProjectionTable }

def InstanceColumnID : Column := { name := "id", table := instanceTable }

def InstanceColumnName : Column := { name := "name", table := instanceTable }

def InstanceColumnCreationDate : Column :=
  { name := "creation_date", table := instanceTable }

def InstanceColumnChangeDate : Column :=
  { name := "change_date", table := instanceTable }

def InstanceColumnSequence : Column :=
  { name := "sequence", table := instanceTable }

def InstanceColumnGlobalOrgID : Column :=
  { name := "global_org_id", table := instanceTable }

def InstanceColumnProjectID : Column :=
  { name := "iam_project_id", table := instanceTable }

def InstanceColumnConsoleID : Column :=
  { name := "console_client_id", table := instanceTable }

def InstanceColumnConsoleAppID : Column :=
  { name := "console_app_id", table := instanceTable }

def InstanceColumnSetupStarted : Column :=
  { name := "setup_started", table := instanceTable }

def InstanceColumnSetupDone : Column :=
  { name := "setup_done", table := instanceTable }

def InstanceColumnDefaultLanguage : Column :=
  { name := "default_language", table := instanceTable }

/-- Modelled from the spec: the domain binding read table and its columns
(defined in a sibling file of the query package). -/
def instanceDomainTable : Table := { name := "projections.instance_domains" }

def InstanceDomainDomainCol : Column :=
  { name := "domain", table := instanceDomainTable }

def InstanceDomainInstanceIDCol : Column :=
  { name := "instance_id", table := instanceDomainTable }

/-- Modelled from the spec: the window aggregate count column added to
collection queries; it has no owning table. -/
def countColumn : Column := { name := "COUNT(*) OVER ()", table := { name := "" } }

/-- The Instance entity, translated field for field from the source struct. -/
structure Instance where
  ID : String
  ChangeDate : GoTime
  CreationDate : GoTime
  Sequence : Nat
  GlobalOrgID : String
  IAMProjectID : String
  ConsoleID : String
  ConsoleAppID : String
  DefaultLanguage : LangTag
  SetupStarted : Step
  SetupDone : Step
  Host : String
deriving DecidableEq

/-- The Go zero value of Instance, produced by new(Instance): empty strings,
zero times and sequence, the zero (undefined) language tag, zero steps. -/
def Instance.zero : Instance :=
  { ID := "", ChangeDate := 0, CreationDate := 0, Sequence := 0,
    GlobalOrgID := "", IAMProjectID := "", ConsoleID := "", ConsoleAppID := "",
    DefaultLanguage := LangTag.und, SetupStarted := 0, SetupDone := 0, Host := "" }

/-- Helper used to compare two instances while ignoring the Host field. -/
def Instance.clearHost (i : Instance) : Instance := { i with Host := "" }

/-- Modelled from the spec: the collection response envelope carrying the
total match count (SearchResponse of the query package; only the count
field is relevant to this unit). -/
structure SearchResponse where
  Count : Nat
deriving DecidableEq

/-- The Instances collection, translated from the source struct. -/
structure Instances where
  SearchResponse : SearchResponse
  Instances : List Instance
deriving DecidableEq

/-- Modelled from the spec: a rendered where predicate of the external
statement builder; the malformed variant carries a predicate state that
cannot serialize and surfaces only at final serialization (spec 4.3). -/
inductive WherePred where
  | eq (col : String) (value : String)
  | inList (col : String) (values : List String)
  | malformed (e : GoError)
deriving DecidableEq

/-- Modelled from the spec: the external statement builder state (squirrel
SelectBuilder): projection, base table, left joins, where predicates in
application order, ordering and pagination; placeholders are positional
dollar placeholders. -/
structure SelectBuilder where
  columns : List String
  fromT : String
  leftJoins : List String
  wheres : List WherePred
  orderBys : List String
  limitN : Option Nat
  offsetN : Option Nat
deriving DecidableEq

/-- Modelled from the spec: sq.Select starts a builder with the given
projection. -/
def sqSelect (cols : List String) : SelectBuilder :=
  { columns := cols, fromT := "", leftJoins := [], wheres := [],
    orderBys := [], limitN := none, offsetN := none }

/-- Modelled from the spec: the From step of the builder chain. -/
def SelectBuilder.From (b : SelectBuilder) (t : String) : SelectBuilder :=
  { b with fromT := t }

/-- Modelled from the spec: the LeftJoin step of the builder chain. -/
def SelectBuilder.LeftJoin (b : SelectBuilder) (j : String) : SelectBuilder :=
  { b with leftJoins := b.leftJoins ++ [j] }

/-- Modelled from the spec: the Where step of the builder chain, adding one
predicate; predicates combine as a logical AND in application order. -/
def SelectBuilder.Where (b : SelectBuilder) (p : WherePred) : SelectBuilder :=
  { b with wheres := b.wheres ++ [p] }

/-- Positional dollar placeholders starting at a given index. -/
def placeholderList (start count : Nat) : List String :=
  (List.range count).map (fun i => "$" ++ toString (start + i))

/-- Joins two condition fragments with AND, dropping an empty right part. -/
def joinAnd (a b : String) : String :=
  if b = "" then a else a ++ " AND " ++ b

/-- Modelled from the spec: renders the where predicates into one AND
joined condition with dollar placeholders and the bound argument list; a
malformed predicate state makes serialization fail with its error. -/
def renderWheres : Nat → List WherePred → Except GoError (String × List String)
  | _, [] => Except.ok ("", [])
  | _, WherePred.malformed e :: _ => Except.error e
  | n, WherePred.eq col v :: ps =>
      match renderWheres (n + 1) ps with
      | Except.error e => Except.error e
      | Except.ok (s, args) =>
          Except.ok (joinAnd (col ++ " = $" ++ toString n) s, v :: args)
  | n, WherePred.inList col vs :: ps =>
      match renderWheres (n + vs.length) ps with
      | Except.error e => Except.error e
      | Except.ok (s, args) =>
          Except.ok
            (joinAnd (col ++ " IN (" ++
                String.intercalate ", " (placeholderList n vs.length) ++ ")") s,
              vs ++ args)

/-- Modelled from the spec: final serialization (ToSql) of an assembled
statement; it fails exactly when a predicate state is malformed, and
otherwise yields the statement text and the bound arguments. -/
def SelectBuilder.ToSql (b : SelectBuilder) : Except GoError (String × List String) :=
  match renderWheres 1 b.wheres with
  | Except.error e => Except.error e
  | Except.ok (w, args) =>
      Except.ok
        ("SELECT " ++ String.intercalate ", " b.columns
          ++ " FROM " ++ b.fromT
          ++ String.join (b.leftJoins.map (fun j => " LEFT JOIN " ++ j))
          ++ (if w = "" then "" else " WHERE " ++ w)
          ++ (if b.orderBys.isEmpty then ""
              else " ORDER BY " ++ String.intercalate ", " b.orderBys)
          ++ (match b.limitN with
              | some n => " LIMIT " ++ toString n
              | none => "")
          ++ (match b.offsetN with
              | some n => " OFFSET " ++ toString n
              | none => ""),
          args)

/-- Modelled from the spec: the final serialization step as the operations
see it.  The spec (4.3) treats serialization as a step of the external
builder library that may fail; an environment fixes its behavior, and the
faithful environment renders through SelectBuilder.ToSql. -/
structure SqlEnv where
  toSql : SelectBuilder → Except GoError (String × List String)

/-- The faithful serialization environment. -/
def sqRender : SqlEnv := { toSql := SelectBuilder.ToSql }

/-- Modelled from the spec: the join helper rendering the ON clause of the
left join against the domain binding table. -/
def join (left right : Column) : String :=
  left.table.identifier ++ " ON " ++ left.identifier ++ " = " ++ right.identifier

/-- Modelled from the spec: a composable predicate of the query package
(the SearchQuery interface).  Variants used by this unit: text equality,
list membership, and a malformed predicate state that cannot serialize. -/
inductive SearchQuery where
  | textEquals (c : Column) (value : String)
  | listIn (c : Column) (values : List String)
  | malformed (e : GoError)
deriving DecidableEq

/-- Modelled from the spec: a predicate renders itself into the statement
as one added condition with bound parameters. -/
def SearchQuery.toQuery : SearchQuery → SelectBuilder → SelectBuilder
  | SearchQuery.textEquals c v, b => b.Where (WherePred.eq c.identifier v)
  | SearchQuery.listIn c vs, b => b.Where (WherePred.inList c.identifier vs)
  | SearchQuery.malformed e, b => b.Where (WherePred.malformed e)

/-- Modelled from the spec: the pagination and ordering part of a search
request (SearchRequest of the query package). -/
structure SearchRequest where
  Offset : Nat
  Limit : Nat
  SortingColumn : Option Column
  Asc : Bool
deriving DecidableEq

/-- Modelled from the spec: SearchRequest.toQuery applies the optional
ordering and pagination to the statement. -/
def SearchRequest.toQuery (r : SearchRequest) (query : SelectBuilder) : SelectBuilder :=
  let b1 :=
    match r.SortingColumn with
    | some c =>
        { query with
            orderBys := query.orderBys ++
              [c.identifier ++ (if r.Asc then "" else " DESC")] }
    | none => query
  let b2 := if r.Limit > 0 then { b1 with limitN := some r.Limit } else b1
  if r.Offset > 0 then { b2 with offsetN := some r.Offset } else b2

/-- The search request of the instance collection query, translated from
the source struct. -/
structure InstanceSearchQueries where
  SearchRequest : SearchRequest
  Queries : List SearchQuery
deriving DecidableEq

/-- Translated from the source: applies the embedded search request and
then every predicate, in order, to the statement. -/
def InstanceSearchQueries.toQuery (q : InstanceSearchQueries)
    (query : SelectBuilder) : SelectBuilder :=
  List.foldl (fun acc p => p.toQuery acc) (q.SearchRequest.toQuery query) q.Queries

/-- NewInstanceIDsListSearchQuery, translated from the source: builds the
id in list predicate (NewListQuery with ListIn, modelled from the spec). -/
def NewInstanceIDsListSearchQuery (ids : List String) : Except GoError SearchQuery :=
  Except.ok (SearchQuery.listIn InstanceColumnID ids)

/-- Modelled from the spec: the tenant identity attached to the request
context by upstream request handling (the authz package). -/
structure CtxInstance where
  instanceID : String
  requestedDomain : String
deriving DecidableEq

/-- Modelled from the spec: a request context carrying the resolved tenant
identity. -/
structure Context where
  authzInstance : CtxInstance
deriving DecidableEq

/-- Modelled from the spec: authz.GetInstance reads the tenant identity
from the context. -/
def authzGetInstance (ctx : Context) : CtxInstance := ctx.authzInstance

/-- The decoded column values of one row of the tenant projection, in the
select order of the source (the local lang string is the raw value of the
default language column). -/
structure InstanceRow where
  id : String
  creationDate : GoTime
  changeDate : GoTime
  sequence : Nat
  globalOrgID : String
  iamProjectID : String
  consoleID : String
  consoleAppID : String
  setupStarted : Step
  setupDone : Step
  lang : String
deriving DecidableEq

/-- The outcome of sql.Row.Scan on a single row read: either an error (the
sentinel ErrNoRows when the result set was empty, some other error on any
other decode failure) or the decoded column values. -/
inductive Row where
  | err (e : GoError)
  | cols (r : InstanceRow)
deriving DecidableEq

/-- One step of iterating a row set: either the decoded columns of the row
together with the trailing aggregate count column, or a decode failure. -/
inductive RowItem where
  | scanErr (e : GoError)
  | cols (r : InstanceRow) (count : Nat)
deriving DecidableEq

/-- The outcome of a row set read: the iterated row outcomes in order plus
the outcome of releasing the cursor afterwards (rows.Close). -/
structure Rows where
  items : List RowItem
  closeErr : Option GoError
deriving DecidableEq

/-- Modelled from the spec: the synchronous query execution handle.  A
single row read always yields a row scan outcome (errors surface at scan
time, as with sql.Row); a row set read may fail up front. -/
structure Client where
  QueryContext : Context → String → List String → Except GoError Rows
  QueryRowContext : Context → String → List String → Row

/-- The Queries receiver of the source, holding the execution client, plus
the serialization environment of the external builder library. -/
structure Queries where
  client : Client
  sq : SqlEnv

/-- The scanner returned by prepareInstanceQuery, translated line for line:
NotFound when the error is ErrNoRows, Internal on any other error, and on
success the entity with the caller supplied host and the normalized
default language. -/
def scanInstanceRow (host : String) (row : Row) : Except GoError Instance :=
  match row with
  | Row.err e =>
      if errsIs e GoError.sqlErrNoRows then
        Except.error (ThrowNotFound e "QUERY-n0wng" "Errors.IAM.NotFound")
      else
        Except.error (ThrowInternal e "QUERY-d9nw" "Errors.Internal")
  | Row.cols r =>
      Except.ok
        { ID := r.id, CreationDate := r.creationDate, ChangeDate := r.changeDate,
          Sequence := r.sequence, GlobalOrgID := r.globalOrgID,
          IAMProjectID := r.iamProjectID, ConsoleID := r.consoleID,
          ConsoleAppID := r.consoleAppID, SetupStarted := r.setupStarted,
          SetupDone := r.setupDone, DefaultLanguage := languageMake r.lang,
          Host := host }

/-- prepareInstanceQuery, translated from the source: the statement over
the tenant table and the single row scanner closed over the host. -/
def prepareInstanceQuery (host : String) :
    SelectBuilder × (Row → Except GoError Instance) :=
  ((sqSelect
      [InstanceColumnID.identifier,
        InstanceColumnCreationDate.identifier,
        InstanceColumnChangeDate.identifier,
        InstanceColumnSequence.identifier,
        InstanceColumnGlobalOrgID.identifier,
        InstanceColumnProjectID.identifier,
        InstanceColumnConsoleID.identifier,
        InstanceColumnConsoleAppID.identifier,
        InstanceColumnSetupStarted.identifier,
        InstanceColumnSetupDone.identifier,
        InstanceColumnDefaultLanguage.identifier]).From instanceTable.identifier,
    scanInstanceRow host)

/-- The loop body of the scanner of prepareInstancesQuery, translated from
the source: iterates the row outcomes, aborting with the raw error on a
decode failure; each decoded row starts from the zero Instance (the
scanner assigns neither Host nor DefaultLanguage, the raw lang value is
read and discarded) and the count column overwrites the running count. -/
def scanInstancesLoop :
    List RowItem → List Instance → Nat → Except GoError (List Instance × Nat)
  | [], acc, count => Except.ok (acc, count)
  | RowItem.scanErr e :: _, _, _ => Except.error e
  | RowItem.cols r c :: rest, acc, _ =>
      scanInstancesLoop rest
        (acc ++
          [{ Instance.zero with
              ID := r.id, CreationDate := r.creationDate,
              ChangeDate := r.changeDate, Sequence := r.sequence,
              GlobalOrgID := r.globalOrgID, IAMProjectID := r.iamProjectID,
              ConsoleID := r.consoleID, ConsoleAppID := r.consoleAppID,
              SetupStarted := r.setupStarted, SetupDone := r.setupDone }])
        c

/-- The scanner returned by prepareInstancesQuery, translated from the
source: run the iteration loop; on a decode failure return that error as
is with no collection; then release the cursor, turning a release failure
into an Internal condition; otherwise return the collection and count. -/
def scanInstancesRows (rws : Rows) : Except GoError Instances :=
  match scanInstancesLoop rws.items [] 0 with
  | Except.error e => Except.error e
  | Except.ok (insts, count) =>
      match rws.closeErr with
      | some e =>
          Except.error (ThrowInternal e "QUERY-8nlWW" "Errors.Query.CloseRows")
      | none =>
          Except.ok { SearchResponse := { Count := count }, Instances := insts }

/-- prepareInstancesQuery, translated from the source: the collection
statement (same projection plus the aggregate count column) and the multi
row scanner. -/
def prepareInstancesQuery :
    SelectBuilder × (Rows → Except GoError Instances) :=
  ((sqSelect
      [InstanceColumnID.identifier,
        InstanceColumnCreationDate.identifier,
        InstanceColumnChangeDate.identifier,
        InstanceColumnSequence.identifier,
        InstanceColumnGlobalOrgID.identifier,
        InstanceColumnProjectID.identifier,
        InstanceColumnConsoleID.identifier,
        InstanceColumnConsoleAppID.identifier,
        InstanceColumnSetupStarted.identifier,
        InstanceColumnSetupDone.identifier,
        InstanceColumnDefaultLanguage.identifier,
        countColumn.identifier]).From instanceTable.identifier,
    scanInstancesRows)

/-- The scanner returned by prepareInstanceDomainQuery, translated line for
line from the source; its body is identical to the scanner of
prepareInstanceQuery, including the error ids. -/
def scanInstanceDomainRow (host : String) (row : Row) : Except GoError Instance :=
  match row with
  | Row.err e =>
      if errsIs e GoError.sqlErrNoRows then
        Except.error (ThrowNotFound e "QUERY-n0wng" "Errors.IAM.NotFound")
      else
        Except.error (ThrowInternal e "QUERY-d9nw" "Errors.Internal")
  | Row.cols r =>
      Except.ok
        { ID := r.id, CreationDate := r.creationDate, ChangeDate := r.changeDate,
          Sequence := r.sequence, GlobalOrgID := r.globalOrgID,
          IAMProjectID := r.iamProjectID, ConsoleID := r.consoleID,
          ConsoleAppID := r.consoleAppID, SetupStarted := r.setupStarted,
          SetupDone := r.setupDone, DefaultLanguage := languageMake r.lang,
          Host := host }

/-- prepareInstanceDomainQuery, translated from the source: the tenant
statement left joined against the domain binding table, and the single row
scanner closed over the host. -/
def prepareInstanceDomainQuery (host : String) :
    SelectBuilder × (Row → Except GoError Instance) :=
  (((sqSelect
      [InstanceColumnID.identifier,
        InstanceColumnCreationDate.identifier,
        InstanceColumnChangeDate.identifier,
        InstanceColumnSequence.identifier,
        InstanceColumnGlobalOrgID.identifier,
        InstanceColumnProjectID.identifier,
        InstanceColumnConsoleID.identifier,
        InstanceColumnConsoleAppID.identifier,
        InstanceColumnSetupStarted.identifier,
        InstanceColumnSetupDone.identifier,
        InstanceColumnDefaultLanguage.identifier]).From
      instanceTable.identifier).LeftJoin
      (join InstanceDomainInstanceIDCol InstanceColumnID),
    scanInstanceDomainRow host)

/-- Go strings.Split(s, colon) first element: the prefix of the character
list before the first colon, the whole string when there is none. -/
def takeUntilColon : List Char → List Char
  | [] => []
  | c :: cs => if c = ':' then [] else c :: takeUntilColon cs

/-- The host with any port suffix stripped: strings.Split(host, colon)[0]. -/
def splitColonHead (s : String) : String :=
  String.mk (takeUntilColon s.data)

/-- SearchInstances, translated from the source: build and serialize the
collection statement (InvalidArgument on serialization failure), execute
it (Internal on execution failure), then scan the rows, propagating any
scan error as is. -/
def Queries.SearchInstances (q : Queries) (ctx : Context)
    (queries : InstanceSearchQueries) : Except GoError Instances :=
  match q.sq.toSql (queries.toQuery prepareInstancesQuery.1) with
  | Except.error e =>
      Except.error (ThrowInvalidArgument e "QUERY-M9fow" "Errors.Query.SQLStatement")
  | Except.ok (stmt, args) =>
      match q.client.QueryContext ctx stmt args with
      | Except.error e =>
          Except.error (ThrowInternal e "QUERY-3j98f" "Errors.Internal")
      | Except.ok rws => prepareInstancesQuery.2 rws

/-- The Instance operation, translated from the source: the single row
statement filtered on the context tenant id, with the context requested
domain as host; serialization failure yields an Internal condition. -/
def Queries.Instance (q : Queries) (ctx : Context) : Except GoError Query.Instance :=
  match
    q.sq.toSql
      ((prepareInstanceQuery (authzGetInstance ctx).requestedDomain).1.Where
        (WherePred.eq InstanceColumnID.identifier (authzGetInstance ctx).instanceID))
  with
  | Except.error e =>
      Except.error (ThrowInternal e "QUERY-d9ngs" "Errors.Query.SQLStatement")
  | Except.ok (stmt, args) =>
      (prepareInstanceQuery (authzGetInstance ctx).requestedDomain).2
        (q.client.QueryRowContext ctx stmt args)

/-- InstanceByHost, translated from the source: the domain joined statement
filtered on the domain column equal to the host with its port stripped,
with the full host as the echoed Host value; serialization failure yields
an Internal condition. -/
def Queries.InstanceByHost (q : Queries) (ctx : Context) (host : String) :
    Except GoError Query.Instance :=
  match
    q.sq.toSql
      ((prepareInstanceDomainQuery host).1.Where
        (WherePred.eq InstanceDomainDomainCol.identifier (splitColonHead host)))
  with
  | Except.error e =>
      Except.error (ThrowInternal e "QUERY-SAfg2" "Errors.Query.SQLStatement")
  | Except.ok (stmt, args) =>
      (prepareInstanceDomainQuery host).2 (q.client.QueryRowContext ctx stmt args)

/-- GetDefaultLanguage, translated from the source: resolve the tenant by
context and return its default language, degrading to the undefined
sentinel on any failure. -/
def Queries.GetDefaultLanguage (q : Queries) (ctx : Context) : LangTag :=
  match q.Instance ctx with
  | Except.error _ => languageUnd
  | Except.ok iam => iam.DefaultLanguage

/-- A concrete decoded row used by the witnesses. -/
def r0 : InstanceRow :=
  { id := "inst-1", creationDate := 10, changeDate := 20, sequence := 7,
    globalOrgID := "org-1", iamProjectID := "proj-1", consoleID := "con-1",
    consoleAppID := "app-1", setupStarted := 1, setupDone := 2, lang := "en" }

/-- The witness row with an empty stored default language. -/
def rEmptyLang : InstanceRow := { r0 with lang := "" }

/-- The entity the multi row scanner produces from r0: Host and
DefaultLanguage keep their zero values. -/
def inst0 : Instance :=
  { ID := "inst-1", ChangeDate := 20, CreationDate := 10, Sequence := 7,
    GlobalOrgID := "org-1", IAMProjectID := "proj-1", ConsoleID := "con-1",
    ConsoleAppID := "app-1", DefaultLanguage := LangTag.und,
    SetupStarted := 1, SetupDone := 2, Host := "" }

/-- The entity a single row scanner produces from r0 under a given host. -/
def instHost (h : String) : Instance :=
  { inst0 with DefaultLanguage := LangTag.tag "en", Host := h }

/-- A test client that returns one decoded row for single row reads and a
one row result set for collection reads. -/
def okClient : Client :=
  { QueryContext := fun _ _ _ =>
      Except.ok { items := [RowItem.cols r0 1], closeErr := none },
    QueryRowContext := fun _ _ _ => Row.cols r0 }

/-- A test client whose reads match no rows. -/
def noRowsClient : Client :=
  { QueryContext := fun _ _ _ => Except.ok { items := [], closeErr := none },
    QueryRowContext := fun _ _ _ => Row.err GoError.sqlErrNoRows }

/-- A test context carrying a tenant id and a requested domain. -/
def ctx0 : Context :=
  { authzInstance := { instanceID := "inst-1", requestedDomain := "tenant.example.com" } }

/-- A serialization environment whose final serialization always fails, as
with a malformed predicate state. -/
def sqBroken : SqlEnv :=
  { toSql := fun _ => Except.error (GoError.driver "malformed") }

def qOK : Queries := { client := okClient, sq := sqRender }

def qNoRows : Queries := { client := noRowsClient, sq := sqRender }

def qBroken : Queries := { client := okClient, sq := sqBroken }

/-- The empty search request used by the witnesses. -/
def qs0 : InstanceSearchQueries :=
  { SearchRequest := { Offset := 0, Limit := 0, SortingColumn := none, Asc := true },
    Queries := [] }

/-- The entity a single row scanner produces from rEmptyLang under a given
host: the empty stored language normalizes to the undefined tag. -/
def instEmptyLang (h : String) : Instance := { inst0 with Host := h }

/-- The error the single row scanners produce on an empty result set. -/
def e7 : GoError :=
  ThrowNotFound GoError.sqlErrNoRows "QUERY-n0wng" "Errors.IAM.NotFound"

/-- The collection qOK yields for the witness search. -/
def res10 : Instances := { SearchResponse := { Count := 1 }, Instances := [inst0] }

theorem prepareInstanceQuery_snd (h : String) :
    (prepareInstanceQuery h).2 = scanInstanceRow h := rfl

theorem prepareInstanceDomainQuery_snd (h : String) :
    (prepareInstanceDomainQuery h).2 = scanInstanceDomainRow h := rfl

theorem prepareInstanceDomainQuery_fst (h1 h2 : String) :
    (prepareInstanceDomainQuery h1).1 = (prepareInstanceDomainQuery h2).1 := rfl

theorem prepareInstancesQuery_snd :
    prepareInstancesQuery.2 = scanInstancesRows := rfl

/-- A successful single row scan echoes the supplied host unchanged. -/
theorem scanInstanceRow_host (host : String) (row : Row) (i : Instance)
    (h : scanInstanceRow host row = Except.ok i) : i.Host = host := by
  cases row with
  | err e =>
      simp only [scanInstanceRow] at h
      split at h <;> exact Except.noConfusion h
  | cols r =>
      simp only [scanInstanceRow] at h
      injection h with h2
      rw [← h2]

/-- A successful domain joined single row scan echoes the supplied host. -/
theorem scanInstanceDomainRow_host (host : String) (row : Row) (i : Instance)
    (h : scanInstanceDomainRow host row = Except.ok i) : i.Host = host := by
  cases row with
  | err e =>
      simp only [scanInstanceDomainRow] at h
      split at h <;> exact Except.noConfusion h
  | cols r =>
      simp only [scanInstanceDomainRow] at h
      injection h with h2
      rw [← h2]

/-- The host only influences the Host field of the domain scanner result. -/
theorem scanDomainRow_clearHost (h1 h2 : String) (row : Row) :
    Except.map Instance.clearHost (scanInstanceDomainRow h1 row)
      = Except.map Instance.clearHost (scanInstanceDomainRow h2 row) := by
  cases row <;> rfl

/-- The iteration loop aborts with the raw decode error of the first
failing row, whatever was accumulated before it. -/
theorem scanInstancesLoop_error (good : List (InstanceRow × Nat)) (e : GoError)
    (rest : List RowItem) :
    ∀ (acc : List Instance) (c : Nat),
      scanInstancesLoop
          (good.map (fun p => RowItem.cols p.1 p.2) ++ RowItem.scanErr e :: rest) acc c
        = Except.error e := by
  induction good with
  | nil => intro acc c; rfl
  | cons hd tl ih =>
      intro acc c
      simp only [List.map_cons, List.cons_append]
      unfold scanInstancesLoop
      exact ih _ _

/-- Every entity the iteration loop accumulates beyond its initial
accumulator has an empty Host field. -/
theorem scanInstancesLoop_host (items : List RowItem) :
    ∀ (acc : List Instance) (c : Nat) (out : List Instance × Nat),
      scanInstancesLoop items acc c = Except.ok out →
      (∀ i ∈ acc, i.Host = "") → ∀ i ∈ out.1, i.Host = "" := by
  induction items with
  | nil =>
      intro acc c out h hacc
      unfold scanInstancesLoop at h
      injection h with h2
      rw [← h2]
      exact hacc
  | cons hd tl ih =>
      intro acc c out h hacc
      cases hd with
      | scanErr e =>
          unfold scanInstancesLoop at h
          simp at h
      | cols r cnt =>
          unfold scanInstancesLoop at h
          refine ih _ _ _ h ?_
          intro i hi
          rcases List.mem_append.mp hi with hmem | hmem
          · exact hacc i hmem
          · rw [List.mem_singleton.mp hmem]
            rfl

/-- Claim C1 (corrected): when final statement serialization fails, no
execution is attempted (the conclusion fixes the result for every client),
but only SearchInstances reports an InvalidArgument condition; Instance
and InstanceByHost wrap the serialization failure as an Internal
condition. -/
theorem c1_statement_failure_kinds (q : Queries) (ctx : Context)
    (qs : InstanceSearchQueries) (host : String) (e : GoError) :
    (q.sq.toSql (qs.toQuery prepareInstancesQuery.1) = Except.error e →
        q.SearchInstances ctx qs
          = Except.error (ThrowInvalidArgument e "QUERY-M9fow" "Errors.Query.SQLStatement"))
    ∧ (q.sq.toSql
          ((prepareInstanceQuery (authzGetInstance ctx).requestedDomain).1.Where
            (WherePred.eq InstanceColumnID.identifier (authzGetInstance ctx).instanceID))
          = Except.error e →
        q.Instance ctx
          = Except.error (ThrowInternal e "QUERY-d9ngs" "Errors.Query.SQLStatement"))
    ∧ (q.sq.toSql
          ((prepareInstanceDomainQuery host).1.Where
            (WherePred.eq InstanceDomainDomainCol.identifier (splitColonHead host)))
          = Except.error e →
        q.InstanceByHost ctx host
          = Except.error (ThrowInternal e "QUERY-SAfg2" "Errors.Query.SQLStatement")) := by
  refine ⟨fun h => ?_, fun h => ?_, fun h => ?_⟩
  · unfold Queries.SearchInstances; rw [h]
  · unfold Queries.Instance; rw [h]
  · unfold Queries.InstanceByHost; rw [h]

/-- Claim C1 witness: a concrete failing serialization environment, where
SearchInstances reports InvalidArgument and InstanceByHost Internal. -/
theorem c1_statement_failure_kinds_witness :
    Queries.SearchInstances qBroken ctx0 qs0
        = Except.error
            (ThrowInvalidArgument (GoError.driver "malformed") "QUERY-M9fow" "Errors.Query.SQLStatement")
      ∧ Queries.InstanceByHost qBroken ctx0 "tenant.example.com:8443"
        = Except.error
            (ThrowInternal (GoError.driver "malformed") "QUERY-SAfg2" "Errors.Query.SQLStatement") :=
  ⟨(c1_statement_failure_kinds qBroken ctx0 qs0 "tenant.example.com:8443"
      (GoError.driver "malformed")).1 rfl,
    (c1_statement_failure_kinds qBroken ctx0 qs0 "tenant.example.com:8443"
      (GoError.driver "malformed")).2.2 rfl⟩

/-- Claim C1 counterexample: at a concrete input whose final serialization
fails, the Instance operation returns an error that is not an
InvalidArgument condition, refuting the claim as stated. -/
theorem c1_counterexample :
    qBroken.sq.toSql
        ((prepareInstanceQuery (authzGetInstance ctx0).requestedDomain).1.Where
          (WherePred.eq InstanceColumnID.identifier (authzGetInstance ctx0).instanceID))
      = Except.error (GoError.driver "malformed")
    ∧ Queries.Instance qBroken ctx0
      = Except.error
          (ThrowInternal (GoError.driver "malformed") "QUERY-d9ngs" "Errors.Query.SQLStatement")
    ∧ (ThrowInternal (GoError.driver "malformed") "QUERY-d9ngs"
          "Errors.Query.SQLStatement").isKind ErrKind.invalidArgument = false :=
  ⟨rfl, rfl, rfl⟩

/-- Claim C2 (confirmed): both single row scanners turn an ErrNoRows scan
outcome into a NotFound condition and any other scan failure into an
Internal condition. -/
theorem c2_single_row_scan_errors (host : String) (e : GoError) :
    (errsIs e GoError.sqlErrNoRows = true →
        scanInstanceRow host (Row.err e)
            = Except.error (ThrowNotFound e "QUERY-n0wng" "Errors.IAM.NotFound")
          ∧ scanInstanceDomainRow host (Row.err e)
            = Except.error (ThrowNotFound e "QUERY-n0wng" "Errors.IAM.NotFound"))
    ∧ (errsIs e GoError.sqlErrNoRows = false →
        scanInstanceRow host (Row.err e)
            = Except.error (ThrowInternal e "QUERY-d9nw" "Errors.Internal")
          ∧ scanInstanceDomainRow host (Row.err e)
            = Except.error (ThrowInternal e "QUERY-d9nw" "Errors.Internal")) := by
  constructor <;> intro h <;>
    exact ⟨by simp [scanInstanceRow, h], by simp [scanInstanceDomainRow, h]⟩

/-- Claim C2 witness: the empty result set gives NotFound, a driver error
gives Internal. -/
theorem c2_single_row_scan_errors_witness :
    scanInstanceRow "tenant.example.com" (Row.err GoError.sqlErrNoRows)
        = Except.error (ThrowNotFound GoError.sqlErrNoRows "QUERY-n0wng" "Errors.IAM.NotFound")
      ∧ scanInstanceDomainRow "tenant.example.com" (Row.err (GoError.driver "boom"))
        = Except.error (ThrowInternal (GoError.driver "boom") "QUERY-d9nw" "Errors.Internal") :=
  ⟨((c2_single_row_scan_errors "tenant.example.com" GoError.sqlErrNoRows).1 (by decide)).1,
    ((c2_single_row_scan_errors "tenant.example.com" (GoError.driver "boom")).2 (by decide)).2⟩

/-- Claim C3 counterexample: a result set whose second row fails to decode
makes the multi row scanner return the raw driver error, which is not an
Internal condition, refuting the claim as stated. -/
theorem c3_counterexample :
    scanInstancesRows
        { items := [RowItem.cols r0 2, RowItem.scanErr (GoError.driver "boom")],
          closeErr := none }
      = Except.error (GoError.driver "boom")
    ∧ (GoError.driver "boom").isKind ErrKind.internal = false :=
  ⟨rfl, rfl⟩

/-- Claim C3 (corrected): when decoding any row fails, the multi row
scanner aborts and returns the decode error unchanged, not wrapped as an
Internal condition, and no partially accumulated instances are returned
(the result carries no collection). -/
theorem c3_scan_error_unwrapped (good : List (InstanceRow × Nat)) (e : GoError)
    (rest : List RowItem) (closeE : Option GoError) :
    scanInstancesRows
        { items := good.map (fun p => RowItem.cols p.1 p.2) ++ RowItem.scanErr e :: rest,
          closeErr := closeE }
      = Except.error e := by
  unfold scanInstancesRows
  dsimp only
  rw [scanInstancesLoop_error]

/-- Claim C4 (confirmed): a zero row result set (with a clean cursor
release) makes the multi row scanner succeed with an empty sequence and a
count of zero, never a NotFound condition. -/
theorem c4_empty_result_ok (rws : Rows) (h1 : rws.items = [])
    (h2 : rws.closeErr = none) :
    scanInstancesRows rws
      = Except.ok { SearchResponse := { Count := 0 }, Instances := [] } := by
  unfold scanInstancesRows
  rw [h1, h2]
  rfl

/-- Claim C4 witness. -/
theorem c4_empty_result_ok_witness :
    scanInstancesRows { items := [], closeErr := none }
      = Except.ok { SearchResponse := { Count := 0 }, Instances := [] } :=
  c4_empty_result_ok { items := [], closeErr := none } rfl rfl

/-- Claim C5 (confirmed): InstanceByHost filters by the substring of the
host before the first colon, so two hosts agreeing there (such as a host
with and without a port suffix) yield results equal in every field except
Host, for any client, context and serialization environment. -/
theorem c5_port_insensitive (q : Queries) (ctx : Context) (h1 h2 : String)
    (hs : splitColonHead h1 = splitColonHead h2) :
    Except.map Instance.clearHost (q.InstanceByHost ctx h1)
      = Except.map Instance.clearHost (q.InstanceByHost ctx h2) := by
  unfold Queries.InstanceByHost
  rw [prepareInstanceDomainQuery_fst h1 h2, prepareInstanceDomainQuery_snd h1,
    prepareInstanceDomainQuery_snd h2, hs]
  cases q.sq.toSql
      ((prepareInstanceDomainQuery h2).1.Where
        (WherePred.eq InstanceDomainDomainCol.identifier (splitColonHead h2))) with
  | error e => rfl
  | ok pr =>
      obtain ⟨stmt, args⟩ := pr
      exact scanDomainRow_clearHost h1 h2 _

/-- Claim C5 witness: the two hosts of the claim, on a concrete run. -/
theorem c5_port_insensitive_witness :
    Except.map Instance.clearHost (Queries.InstanceByHost qOK ctx0 "tenant.example.com:8443")
      = Except.map Instance.clearHost (Queries.InstanceByHost qOK ctx0 "tenant.example.com") :=
  c5_port_insensitive qOK ctx0 "tenant.example.com:8443" "tenant.example.com" (by decide)

/-- Claim C6 (confirmed): every successful single row scan returns the
entity with the stored default language string normalized through
language.Make, which sends the empty string to the undefined tag and a
well formed tag such as en to itself. -/
theorem c6_language_normalized (host : String) (r : InstanceRow) (i j : Instance)
    (h1 : scanInstanceRow host (Row.cols r) = Except.ok i)
    (h2 : scanInstanceDomainRow host (Row.cols r) = Except.ok j) :
    i.DefaultLanguage = languageMake r.lang
      ∧ j.DefaultLanguage = languageMake r.lang
      ∧ languageMake "" = LangTag.und
      ∧ languageMake "en" = LangTag.tag "en" := by
  unfold scanInstanceRow at h1
  unfold scanInstanceDomainRow at h2
  injection h1 with h1e
  injection h2 with h2e
  refine ⟨?_, ?_, by decide, by decide⟩
  · rw [← h1e]
  · rw [← h2e]

/-- Claim C6 witness: an empty stored language reads back as the undefined
tag and the stored tag en reads back as en. -/
theorem c6_language_normalized_witness :
    (instEmptyLang "tenant.example.com").DefaultLanguage = languageMake ""
      ∧ (instHost "tenant.example.com").DefaultLanguage = languageMake "en" :=
  ⟨(c6_language_normalized "tenant.example.com" rEmptyLang
      (instEmptyLang "tenant.example.com") (instEmptyLang "tenant.example.com") rfl rfl).1,
    (c6_language_normalized "tenant.example.com" r0
      (instHost "tenant.example.com") (instHost "tenant.example.com") rfl rfl).1⟩

/-- Claim C7 (confirmed): GetDefaultLanguage is total by type and degrades
every resolution failure to the undefined sentinel, returning the resolved
default language on success. -/
theorem c7_default_language_total (q : Queries) (ctx : Context) :
    (∀ e, q.Instance ctx = Except.error e → q.GetDefaultLanguage ctx = languageUnd)
      ∧ ∀ i, q.Instance ctx = Except.ok i →
          q.GetDefaultLanguage ctx = i.DefaultLanguage := by
  constructor
  · intro e h
    unfold Queries.GetDefaultLanguage
    rw [h]
  · intro i h
    unfold Queries.GetDefaultLanguage
    rw [h]

/-- Claim C7 witness: a tenant id that matches no row yields the undefined
sentinel instead of an error. -/
theorem c7_default_language_total_witness :
    Queries.GetDefaultLanguage qNoRows ctx0 = languageUnd :=
  (c7_default_language_total qNoRows ctx0).1 e7 rfl

/-- Claim C8 (confirmed): when every row decodes but releasing the cursor
fails, the multi row scanner returns an Internal condition instead of the
accumulated collection. -/
theorem c8_close_failure_internal (items : List RowItem) (e : GoError)
    (res : List Instance × Nat) (h : scanInstancesLoop items [] 0 = Except.ok res) :
    scanInstancesRows { items := items, closeErr := some e }
      = Except.error (ThrowInternal e "QUERY-8nlWW" "Errors.Query.CloseRows") := by
  obtain ⟨insts, count⟩ := res
  unfold scanInstancesRows
  dsimp only
  rw [h]

/-- Claim C8 witness. -/
theorem c8_close_failure_internal_witness :
    scanInstancesRows { items := [RowItem.cols r0 1], closeErr := some (GoError.driver "disk") }
      = Except.error (ThrowInternal (GoError.driver "disk") "QUERY-8nlWW" "Errors.Query.CloseRows") :=
  c8_close_failure_internal [RowItem.cols r0 1] (GoError.driver "disk") ([inst0], 1) rfl

/-- Claim C9 (confirmed): every successful resolution echoes the caller
supplied host unchanged: for Instance the requested domain of the context,
for InstanceByHost the full host including any port suffix. -/
theorem c9_host_echoed (q : Queries) (ctx : Context) (host : String) (i j : Instance) :
    (q.Instance ctx = Except.ok i → i.Host = (authzGetInstance ctx).requestedDomain)
      ∧ (q.InstanceByHost ctx host = Except.ok j → j.Host = host) := by
  constructor
  · intro h
    unfold Queries.Instance at h
    split at h
    · simp at h
    · rw [prepareInstanceQuery_snd] at h
      exact scanInstanceRow_host _ _ _ h
  · intro h
    unfold Queries.InstanceByHost at h
    split at h
    · simp at h
    · rw [prepareInstanceDomainQuery_snd] at h
      exact scanInstanceDomainRow_host _ _ _ h

/-- Claim C9 witness: a concrete successful run of both operations. -/
theorem c9_host_echoed_witness :
    (instHost "tenant.example.com").Host = (authzGetInstance ctx0).requestedDomain
      ∧ (instHost "tenant.example.com:8443").Host = "tenant.example.com:8443" :=
  ⟨(c9_host_echoed qOK ctx0 "tenant.example.com:8443"
      (instHost "tenant.example.com") (instHost "tenant.example.com:8443")).1 rfl,
    (c9_host_echoed qOK ctx0 "tenant.example.com:8443"
      (instHost "tenant.example.com") (instHost "tenant.example.com:8443")).2 rfl⟩

/-- A successful multi row scan only carries entities with an empty Host. -/
theorem scanInstancesRows_host (rws : Rows) (res : Instances)
    (h : scanInstancesRows rws = Except.ok res) : ∀ i ∈ res.Instances, i.Host = "" := by
  unfold scanInstancesRows at h
  split at h
  · exact Except.noConfusion h
  · rename_i insts count heq
    split at h
    · exact Except.noConfusion h
    · injection h with h2
      rw [← h2]
      exact scanInstancesLoop_host _ _ _ _ heq (by intro i hi; cases hi)

/-- Claim C10 (confirmed): every instance of a successful SearchInstances
result has an empty Host field, since the multi row scanner never
populates it. -/
theorem c10_search_host_empty (q : Queries) (ctx : Context)
    (qs : InstanceSearchQueries) (res : Instances)
    (h : q.SearchInstances ctx qs = Except.ok res) :
    ∀ i ∈ res.Instances, i.Host = "" := by
  unfold Queries.SearchInstances at h
  split at h
  · exact Except.noConfusion h
  · split at h
    · exact Except.noConfusion h
    · rw [prepareInstancesQuery_snd] at h
      exact scanInstancesRows_host _ _ h

/-- Claim C10 witness: the one instance of a concrete search result has an
empty Host. -/
theorem c10_search_host_empty_witness : inst0.Host = "" :=
  c10_search_host_empty qOK ctx0 qs0 res10 rfl inst0 (List.mem_singleton.mpr rfl)

end Query
